import Mathlib

set_option maxRecDepth 8192

/-!
Shallow embedding of the image-assembly pipeline of `src/build.rs`
(the `bootimage` tool): kernel info block encoding, disk image
assembly with padding and minimum-size floor, section extraction from
the bootloader executable, the build orchestration with its abort
behaviour, and the run-command substitution.

Bytes are modelled as `Nat` (values produced are < 256 by
construction); files are `List Nat`; Rust `u64`/`u32` arithmetic that
cannot overflow in the modelled ranges is plain `Nat` arithmetic, with
the `u32::max_value()` comparison kept explicit.  A Rust `panic!` /
`expect` / `unwrap` / failed `assert!` is modelled as `Option.none`
or the `panicked` outcome; `process::exit(code)` as the `exited code`
outcome.
-/

namespace Bootimage

/-- `BLOCK_SIZE` constant from `build.rs` line 12. -/
def BLOCK_SIZE : Nat := 512

/-- `u32::max_value()`, the bound checked by `create_kernel_info_block`. -/
def U32_MAX : Nat := 4294967295

/-- `LittleEndian::write_u32` into a 4-byte buffer: the four
little-endian bytes of `n` (n is a `u32`, i.e. `n ≤ U32_MAX`). -/
def writeU32LE (n : Nat) : List Nat :=
  [n % 256, n / 256 % 256, n / 65536 % 256, n / 16777216 % 256]

/-- Little-endian decoding of the first four bytes of a byte list
(the inverse direction used to state the round-trip property). -/
def readU32LE (b : List Nat) : Nat :=
  b.getD 0 0 + 256 * b.getD 1 0 + 65536 * b.getD 2 0 + 16777216 * b.getD 3 0

/-- `create_kernel_info_block` (`build.rs` 148-159): if the kernel size
fits in a `u32`, a 512-byte block whose first 4 bytes are the
little-endian size and whose remaining bytes stay zero; otherwise the
function panics, modelled as `none`. -/
def create_kernel_info_block (kernel_size : Nat) : Option (List Nat) :=
  if kernel_size ≤ U32_MAX then
    some (writeU32LE kernel_size ++ List.replicate (BLOCK_SIZE - 4) 0)
  else
    none

/-- `padding_size` computed in `create_disk_image` (`build.rs` 360):
`((512 - (kernel_size % 512)) % 512) as usize`.  Over `u64` the inner
subtraction cannot underflow (`kernel_size % 512 ≤ 511`), so `Nat`
arithmetic agrees with the source. -/
def padding_size (kernel_size : Nat) : Nat := (512 - kernel_size % 512) % 512

/-- Bytes of the output file produced by `create_disk_image`
(`build.rs` 328-373): bootloader section bytes, then the info block,
then the kernel bytes (the read loop copies the kernel file verbatim,
silently retrying interrupted reads), then `&padding[..padding_size]`
taken from a 512-byte zero buffer, then — when a minimum image size is
configured and the file is shorter — `set_len` extends the file, whose
new tail reads as zero bytes. -/
def create_disk_image (kernel : List Nat) (kernel_info_block : List Nat)
    (bootloader_data : List Nat) (minimum_image_size : Option Nat) : List Nat :=
  let written := bootloader_data ++ kernel_info_block ++ kernel ++
    (List.replicate 512 0).take (padding_size kernel.length)
  match minimum_image_size with
  | none => written
  | some min_size =>
    if written.length < min_size then
      written ++ List.replicate (min_size - written.length) 0
    else
      written

/-- Errors of the section-extraction step, named as in the spec. -/
inductive ExtractError where
  | MalformedExecutable
  | SectionNotFound
deriving DecidableEq, Repr

/-- Modelled from the spec: the structured-executable byte buffer
parsed by the external ELF library (`xmas_elf`, not part of this
repository).  The spec reduces it to: a buffer either fails the basic
structural sanity checks (`ElfFile::new` / `header::sanity_check`,
bad magic or inconsistent header fields) or parses into a list of
named sections, each a named contiguous raw byte range. -/
structure ExecBuffer where
  wellFormed : Bool
  sections : List (List Char × List Nat)
deriving DecidableEq

/-- Modelled from the spec: `find_section_by_name` of the external ELF
library — pure metadata lookup of the first section with the given
name, no fuzzy or partial matching. -/
def find_section_by_name (sections : List (List Char × List Nat))
    (name : List Char) : Option (List Nat) :=
  (sections.find? (fun p => p.1 == name)).map Prod.snd

/-- The section-extraction step of `build_bootloader` (`build.rs`
311-318): `ElfFile::new(..).unwrap()` and `sanity_check(..).unwrap()`
reject a malformed buffer before any section lookup; then
`find_section_by_name` either yields the section, whose
`raw_data` is returned, or the `expect` fails (`SectionNotFound`). -/
def extract_section (buf : ExecBuffer) (name : List Char) :
    Except ExtractError (List Nat) :=
  if buf.wellFormed then
    match find_section_by_name buf.sections name with
    | some data => Except.ok data
    | none => Except.error ExtractError.SectionNotFound
  else
    Except.error ExtractError.MalformedExecutable

/-- The section name requested by `build_bootloader`: ".bootloader". -/
def bootloader_section_name : List Char :=
  ['.', 'b', 'o', 'o', 't', 'l', 'o', 'a', 'd', 'e', 'r']

/-- The configuration fields consumed by the modelled pipeline. -/
structure Config where
  precompiled : Bool
  minimum_image_size : Option Nat
deriving DecidableEq

/-- External effects observed by one `build_impl` run: exit statuses of
the spawned processes, the kernel file's bytes, whether `cargo fetch`'s
dependency graph contains the bootloader crate, and the bootloader
executable's bytes.  File reads and writes themselves are assumed to
succeed (I/O errors merely propagate and no claim concerns them). -/
structure World where
  kernel_exit : Nat
  kernel_bytes : List Nat
  fetch_exit : Nat
  bootloader_crate_found : Bool
  bootloader_build_exit : Nat
  bootloader_elf : ExecBuffer

/-- How a `build_impl` run ends: `process::exit code`, a Rust panic
(`panic!` / `expect` / `unwrap` / failed `assert!`), or normal
completion. -/
inductive Outcome where
  | exited (code : Nat)
  | panicked
  | completed
deriving DecidableEq, Repr

/-- Result of a modelled `build_impl` run: how it ended, and the bytes
of the output image file (`none` while nothing has been written to it). -/
structure BuildResult where
  outcome : Outcome
  output_image : Option (List Nat)
deriving DecidableEq

/-- Steps of `build_impl` after the info block is computed, in source
order (`build.rs` 82-87): `build_bootloader` (262-319) first runs
`download_bootloader`, whose `assert!` panics on a non-zero
`cargo fetch` status (247) and whose `expect` panics when the crate is
absent from the dependency graph (250-257), then — unless
`precompiled` — runs the toolchain and calls `process::exit(1)` on a
non-zero status (280-283), and finally extracts the `.bootloader`
section, panicking on extraction failure (312-316); `create_disk_image`
(86) then writes the output file. -/
def build_after_info_block (w : World) (config : Config)
    (info : List Nat) : BuildResult :=
  if w.fetch_exit ≠ 0 then
    ⟨Outcome.panicked, none⟩
  else if w.bootloader_crate_found = false then
    ⟨Outcome.panicked, none⟩
  else if config.precompiled = false ∧ w.bootloader_build_exit ≠ 0 then
    ⟨Outcome.exited 1, none⟩
  else
    match extract_section w.bootloader_elf bootloader_section_name with
    | Except.error _ => ⟨Outcome.panicked, none⟩
    | Except.ok sec_bytes =>
      ⟨Outcome.completed,
        some (create_disk_image w.kernel_bytes info sec_bytes
          config.minimum_image_size)⟩

/-- `build_impl` (`build.rs` 63-89): `build_kernel` runs the toolchain
and calls `process::exit(1)` on a non-zero status (129-132); the kernel
size is read and `create_kernel_info_block` runs (71-72, panicking on
an oversized kernel, before the output file is even created); the
remaining steps follow in `build_after_info_block`. -/
def build_impl (w : World) (config : Config) : BuildResult :=
  if w.kernel_exit ≠ 0 then
    ⟨Outcome.exited 1, none⟩
  else
    match create_kernel_info_block w.kernel_bytes.length with
    | none => ⟨Outcome.panicked, none⟩
    | some info => build_after_info_block w config info

/-- The two placeholder characters of the `"\x7b\x7d"` token. -/
def lbrace : Char := Char.ofNat 123

/-- Closing placeholder character. -/
def rbrace : Char := Char.ofNat 125

/-- Rust's `str::replace("\x7b\x7d", path)` on one token: every
non-overlapping occurrence of the two-character placeholder, scanned
left to right, is replaced by `path`. -/
def replace_placeholder (path : List Char) : List Char → List Char
  | [] => []
  | [c1] => [c1]
  | c1 :: c2 :: rest =>
    if c1 = lbrace ∧ c2 = rbrace then
      path ++ replace_placeholder path rest
    else
      c1 :: replace_placeholder path (c2 :: rest)

/-- `run_impl` (`build.rs` 91-108): the command launched is
`run_command[0]` taken verbatim; each of `run_command[1..]` has the
placeholder replaced by the output path; the caller's `run_args` are
appended verbatim.  The result is the pair (program, argument list). -/
def run_impl (run_command : List (List Char)) (output : List Char)
    (run_args : List (List Char)) : List Char × List (List Char) :=
  (run_command.headD [],
    run_command.tail.map (replace_placeholder output) ++ run_args)

/-- The padding length is a remainder mod 512, hence below 512. -/
theorem padding_size_lt (s : Nat) : padding_size s < 512 :=
  Nat.mod_lt _ (by norm_num)

/-- With no minimum size, the image is the plain concatenation with the
padding slice rewritten as a zero list of the padding length. -/
theorem create_disk_image_none_eq (K I B : List Nat) :
    create_disk_image K I B none =
      B ++ I ++ K ++ List.replicate (padding_size K.length) 0 := by
  have h : create_disk_image K I B none =
      B ++ I ++ K ++ (List.replicate 512 0).take (padding_size K.length) := rfl
  rw [h, List.take_replicate, min_eq_left (padding_size_lt K.length).le]

/-- Length of the image before the minimum-size extension. -/
theorem create_disk_image_none_length (K I B : List Nat) :
    (create_disk_image K I B none).length =
      B.length + I.length + K.length + padding_size K.length := by
  rw [create_disk_image_none_eq]
  simp only [List.length_append, List.length_replicate]

/-- With a minimum size, the image is the natural image followed by the
zero extension (empty when the minimum does not exceed the natural
length, by truncated subtraction). -/
theorem create_disk_image_some_eq (K I B : List Nat) (m : Nat) :
    create_disk_image K I B (some m) =
      create_disk_image K I B none ++
        List.replicate (m - (create_disk_image K I B none).length) 0 := by
  have hsome : create_disk_image K I B (some m) =
      if (create_disk_image K I B none).length < m then
        create_disk_image K I B none ++
          List.replicate (m - (create_disk_image K I B none).length) 0
      else
        create_disk_image K I B none := rfl
  rw [hsome]
  by_cases h : (create_disk_image K I B none).length < m
  · rw [if_pos h]
  · rw [if_neg h, Nat.sub_eq_zero_of_le (Nat.le_of_not_lt h)]
    simp only [List.replicate_zero, List.append_nil]

/-- The info block for a 300-byte kernel: 0x2C 0x01 0x00 0x00 and 508
zero bytes. -/
theorem info_block_300 :
    (create_kernel_info_block 300).getD [] =
      44 :: 1 :: 0 :: 0 :: List.replicate 508 0 := by
  rfl

/-- Little-endian round-trip for sizes that fit in a `u32`. -/
theorem readU32LE_writeU32LE (s : Nat) (h : s ≤ U32_MAX) :
    readU32LE (writeU32LE s) = s := by
  show s % 256 + 256 * (s / 256 % 256) + 65536 * (s / 65536 % 256) +
      16777216 * (s / 16777216 % 256) = s
  simp only [U32_MAX] at h
  omega

/-- `find?` on a name-keyed list returns the first entry with the
requested name. -/
theorem find?_name_first (name : List Char) (bytes : List Nat)
    (pre post : List (List Char × List Nat))
    (h : ∀ p ∈ pre, (p.1 == name) = false) :
    List.find? (fun p => p.1 == name) (pre ++ (name, bytes) :: post) =
      some (name, bytes) := by
  rw [List.find?_append]
  have h1 : List.find? (fun p => p.1 == name) pre = none := by
    rw [List.find?_eq_none]
    intro x hx
    simp [h x hx]
  rw [h1, Option.none_or]
  exact List.find?_cons_of_pos _ (by simp)

/-- A token without the opening placeholder character is left
unchanged by the substitution. -/
theorem replace_placeholder_no_lbrace (out : List Char) :
    ∀ t : List Char, (∀ c ∈ t, c ≠ lbrace) → replace_placeholder out t = t := by
  intro t
  induction t with
  | nil => intro _; rfl
  | cons c1 rest ih =>
    intro h
    cases rest with
    | nil => rfl
    | cons c2 rest2 =>
      have hc1 : c1 ≠ lbrace := h c1 (by simp)
      have hcond : ¬(c1 = lbrace ∧ c2 = rbrace) := fun hc => hc1 hc.1
      show (if c1 = lbrace ∧ c2 = rbrace then
          out ++ replace_placeholder out rest2
        else
          c1 :: replace_placeholder out (c2 :: rest2)) = c1 :: c2 :: rest2
      rw [if_neg hcond, ih (fun c hc => h c (List.mem_cons_of_mem _ hc))]

/-- A token that is exactly the placeholder becomes the output path. -/
theorem replace_placeholder_exact (out : List Char) :
    replace_placeholder out [lbrace, rbrace] = out := by
  show (if lbrace = lbrace ∧ rbrace = rbrace then
      out ++ replace_placeholder out []
    else
      lbrace :: replace_placeholder out [rbrace]) = out
  rw [if_pos ⟨rfl, rfl⟩]
  show out ++ [] = out
  simp

/-- A non-zero kernel toolchain status makes `build_impl` exit with
code 1, nothing written. -/
theorem build_impl_kernel_fail (w : World) (c : Config)
    (h : w.kernel_exit ≠ 0) :
    build_impl w c = ⟨Outcome.exited 1, none⟩ := by
  unfold build_impl
  rw [if_pos h]

/-- A panicking `create_kernel_info_block` makes `build_impl` end in a
panic, nothing written. -/
theorem build_impl_info_none (w : World) (c : Config)
    (hk : w.kernel_exit = 0)
    (hck : create_kernel_info_block w.kernel_bytes.length = none) :
    build_impl w c = ⟨Outcome.panicked, none⟩ := by
  unfold build_impl
  rw [if_neg (by simp [hk]), hck]

/-- When the info block is produced, `build_impl` continues with the
bootloader and image steps. -/
theorem build_impl_info_some (w : World) (c : Config) (info : List Nat)
    (hk : w.kernel_exit = 0)
    (hck : create_kernel_info_block w.kernel_bytes.length = some info) :
    build_impl w c = build_after_info_block w c info := by
  unfold build_impl
  rw [if_neg (by simp [hk]), hck]

/-- C1: Disk image layout.  For every bootloader section `B`, kernel
`K` of length below `2^32`, and info block `I`, the output with no
minimum size is exactly `B`, then `I`, then `K` verbatim, then
`(512 - K.length % 512) % 512` zero bytes; with a minimum size `m` it
is followed by zero bytes up to `m` only when `m` exceeds the length
written so far (truncated subtraction).  In particular for `B` = 8
zero bytes, `K` = 300 bytes `0xAA` = 170, and no minimum size, the
output is the 8 zeros, the block `0x2C 0x01 0x00 0x00` plus 508 zeros,
the 300 `0xAA` bytes, and 212 zeros (1032 bytes). -/
theorem C1_disk_image_layout (B K I : List Nat) (m : Nat)
    (h : K.length < 2 ^ 32) :
    create_disk_image K I B none =
      B ++ I ++ K ++ List.replicate ((512 - K.length % 512) % 512) 0 ∧
    create_disk_image K I B (some m) =
      (B ++ I ++ K ++ List.replicate ((512 - K.length % 512) % 512) 0) ++
        List.replicate
          (m - (B ++ I ++ K ++
            List.replicate ((512 - K.length % 512) % 512) 0).length) 0 ∧
    create_disk_image (List.replicate 300 170)
        ((create_kernel_info_block 300).getD []) (List.replicate 8 0) none =
      List.replicate 8 0 ++ (44 :: 1 :: 0 :: 0 :: List.replicate 508 0) ++
        List.replicate 300 170 ++ List.replicate 212 0 := by
  have h1 := create_disk_image_none_eq K I B
  refine ⟨h1, ?_, ?_⟩
  · have h2 := create_disk_image_some_eq K I B m
    rw [h1] at h2
    exact h2
  · rw [create_disk_image_none_eq, info_block_300]
    have hl : (List.replicate (300 : Nat) (170 : Nat)).length = 300 :=
      List.length_replicate _ _
    rw [hl]
    norm_num [padding_size]

/-- Witness for C1 at `B` = `[1]`, `K` = `[2]`, `I` = `[3]`, no
minimum size. -/
theorem C1_disk_image_layout_witness :
    List.length [(2 : Nat)] < 2 ^ 32 ∧
    create_disk_image [2] [3] [1] none =
      [1] ++ [3] ++ [2] ++
        List.replicate ((512 - List.length [(2 : Nat)] % 512) % 512) 0 :=
  ⟨by norm_num, (C1_disk_image_layout [1] [2] [3] 0 (by norm_num)).1⟩

/-- C2: Kernel info block encoding.  For every kernel size `s` with
`s ≤ 2^32 - 1`, `create_kernel_info_block` returns a 512-byte block
whose first 4 bytes are the little-endian encoding of `s` (decoding
them little-endian yields `s` back) and whose bytes 4..512 are all
zero. -/
theorem C2_info_block_encoding (s : Nat) (h : s ≤ 2 ^ 32 - 1) :
    ∃ b, create_kernel_info_block s = some b ∧ b.length = 512 ∧
      b.take 4 = writeU32LE s ∧ readU32LE (b.take 4) = s ∧
      b.drop 4 = List.replicate 508 0 := by
  have hs : s ≤ U32_MAX := by
    simp only [U32_MAX]
    omega
  have hw : (writeU32LE s).length = 4 := rfl
  refine ⟨writeU32LE s ++ List.replicate (BLOCK_SIZE - 4) 0, ?_, ?_, ?_, ?_, ?_⟩
  · have hdef : create_kernel_info_block s =
        if s ≤ U32_MAX then
          some (writeU32LE s ++ List.replicate (BLOCK_SIZE - 4) 0)
        else none := rfl
    rw [hdef, if_pos hs]
  · simp only [List.length_append, List.length_replicate, hw]
    rfl
  · exact List.take_left' hw
  · rw [List.take_left' hw]
    exact readU32LE_writeU32LE s hs
  · exact List.drop_left' hw

/-- Witness for C2 at `s` = 300. -/
theorem C2_info_block_encoding_witness :
    (300 : Nat) ≤ 2 ^ 32 - 1 ∧
    ∃ b, create_kernel_info_block 300 = some b ∧ b.length = 512 ∧
      b.take 4 = writeU32LE 300 ∧ readU32LE (b.take 4) = 300 ∧
      b.drop 4 = List.replicate 508 0 :=
  ⟨by norm_num, C2_info_block_encoding 300 (by norm_num)⟩

/-- C3: Padding arithmetic.  The image contains exactly
`padding_size K.length = (512 - K.length % 512) % 512` zero padding
bytes after the kernel bytes, and for every size `s` the kernel-data
region `s + padding_size s` equals `512 * ⌈(512 + s) / 512⌉ - 512`
(Nat ceiling division written `(512 + s + 511) / 512`) and is
congruent to 0 mod 512. -/
theorem C3_padding_arithmetic (B K I : List Nat) (s : Nat) :
    (create_disk_image K I B none).length =
      B.length + I.length + K.length + padding_size K.length ∧
    padding_size s = (512 - s % 512) % 512 ∧
    s + padding_size s = 512 * ((512 + s + 511) / 512) - 512 ∧
    (s + padding_size s) % 512 = 0 := by
  refine ⟨create_disk_image_none_length K I B, rfl, ?_, ?_⟩
  · simp only [padding_size]
    omega
  · simp only [padding_size]
    omega

/-- C4, counterexample: with the 8-byte bootloader section and a
300-byte kernel the image has 1032 bytes, which is not a multiple of
512 and differs from 1024, the smallest multiple of 512 that is at
least `8 + 512 + 300 = 820` — so the total is not that smallest
multiple and the post-padding total need not be 512-aligned. -/
theorem C4_total_length_counterexample :
    (create_disk_image (List.replicate 300 170)
        ((create_kernel_info_block 300).getD [])
        (List.replicate 8 0) none).length = 1032 ∧
    (1032 : Nat) % 512 ≠ 0 ∧
    512 * (((8 + 512 + 300 : Nat) + 511) / 512) = 1024 ∧
    (1032 : Nat) ≠ 1024 := by
  refine ⟨?_, by norm_num, by norm_num, by norm_num⟩
  rw [create_disk_image_none_length]
  norm_num [padding_size, info_block_300]

/-- C4 as amended: for a 512-byte info block, the total written for
bootloader section + info block + kernel + padding equals the section
length plus the smallest multiple of 512 that is ≥ `512 + K.length`;
it is congruent to the section length mod 512, and only when the
section length is itself a multiple of 512 does it equal the smallest
multiple of 512 ≥ `section_len + 512 + K.length`. -/
theorem C4_total_length (B K I : List Nat) (hI : I.length = 512) :
    (create_disk_image K I B none).length =
      B.length + 512 * ((512 + K.length + 511) / 512) ∧
    (create_disk_image K I B none).length % 512 = B.length % 512 ∧
    (B.length % 512 = 0 →
      (create_disk_image K I B none).length =
        512 * ((B.length + 512 + K.length + 511) / 512)) := by
  rw [create_disk_image_none_length, hI]
  refine ⟨?_, ?_, ?_⟩
  · simp only [padding_size]
    omega
  · simp only [padding_size]
    omega
  · intro hB
    simp only [padding_size]
    omega

/-- Witness for C4 as amended, at empty section and kernel with the
all-zero 512-byte info block. -/
theorem C4_total_length_witness :
    (List.replicate 512 (0 : Nat)).length = 512 ∧
    (create_disk_image [] (List.replicate 512 0) [] none).length =
      List.length ([] : List Nat) +
        512 * ((512 + List.length ([] : List Nat) + 511) / 512) :=
  ⟨List.length_replicate _ _,
    (C4_total_length [] [] (List.replicate 512 0)
      (List.length_replicate _ _)).1⟩

/-- C5: Minimum-size floor.  The image with a configured minimum `m`
is the natural image followed by a zero tail up to `m` (empty when `m`
does not exceed the natural length), and its length is the maximum of
the natural length and `m` — the assembler never truncates. -/
theorem C5_minimum_size_floor (K I B : List Nat) (m : Nat) :
    create_disk_image K I B (some m) =
      create_disk_image K I B none ++
        List.replicate (m - (create_disk_image K I B none).length) 0 ∧
    (create_disk_image K I B (some m)).length =
      max (create_disk_image K I B none).length m := by
  refine ⟨create_disk_image_some_eq K I B m, ?_⟩
  rw [create_disk_image_some_eq]
  simp only [List.length_append, List.length_replicate]
  omega

/-- C6: Oversized-kernel abort.  For every kernel size at least
`2^32` (including exactly `2^32`), `create_kernel_info_block` panics
instead of truncating, and since the info block is computed before the
output file is created, `build_impl` ends in a panic with nothing
written to the output image. -/
theorem C6_oversized_kernel_abort (s : Nat) (w : World) (c : Config)
    (hs : 2 ^ 32 ≤ s) (hw : w.kernel_bytes.length = s)
    (hk : w.kernel_exit = 0) :
    create_kernel_info_block s = none ∧
    build_impl w c = ⟨Outcome.panicked, none⟩ := by
  have hnone : create_kernel_info_block s = none := by
    have hgt : ¬ s ≤ U32_MAX := by
      simp only [U32_MAX]
      omega
    have hdef : create_kernel_info_block s =
        if s ≤ U32_MAX then
          some (writeU32LE s ++ List.replicate (BLOCK_SIZE - 4) 0)
        else none := rfl
    rw [hdef, if_neg hgt]
  refine ⟨hnone, ?_⟩
  exact build_impl_info_none w c hk (by rw [hw, hnone])

/-- Witness for C6 at the boundary size `2^32` exactly. -/
theorem C6_oversized_kernel_abort_witness :
    2 ^ 32 ≤ 2 ^ 32 ∧
    (create_kernel_info_block (2 ^ 32) = none ∧
      build_impl ⟨0, List.replicate (2 ^ 32) 0, 0, true, 0, ⟨true, []⟩⟩
          ⟨false, none⟩ =
        ⟨Outcome.panicked, none⟩) :=
  ⟨le_refl _,
    C6_oversized_kernel_abort (2 ^ 32) _ _ (le_refl _)
      (List.length_replicate _ _) rfl⟩

/-- C7: Section extraction.  On a well-formed executable buffer the
extraction returns exactly the raw bytes of the first section with the
requested name; when no section has that name it fails with
`SectionNotFound`, and then a build run never completes and writes
nothing to the output image; a buffer failing the structural sanity
checks is rejected with `MalformedExecutable` before any section
lookup. -/
theorem C7_section_extraction (buf : ExecBuffer) (name : List Char) :
    (∀ bytes pre post, buf.wellFormed = true →
      buf.sections = pre ++ (name, bytes) :: post →
      (∀ p ∈ pre, (p.1 == name) = false) →
      extract_section buf name = Except.ok bytes) ∧
    (buf.wellFormed = true →
      (∀ p ∈ buf.sections, (p.1 == name) = false) →
      extract_section buf name = Except.error ExtractError.SectionNotFound) ∧
    (buf.wellFormed = false →
      extract_section buf name = Except.error ExtractError.MalformedExecutable) ∧
    (∀ w c, w.bootloader_elf.wellFormed = true →
      (∀ p ∈ w.bootloader_elf.sections,
        (p.1 == bootloader_section_name) = false) →
      (build_impl w c).outcome ≠ Outcome.completed ∧
      (build_impl w c).output_image = none) := by
  refine ⟨?_, ?_, ?_, ?_⟩
  · intro bytes pre post hwf hsec hpre
    have hfind := find?_name_first name bytes pre post hpre
    simp [extract_section, hwf, find_section_by_name, hsec, hfind]
  · intro hwf habs
    have hfind : List.find? (fun p => p.1 == name) buf.sections = none := by
      rw [List.find?_eq_none]
      intro x hx
      simp [habs x hx]
    simp [extract_section, hwf, find_section_by_name, hfind]
  · intro hwf
    simp [extract_section, hwf]
  · intro w c hwf habs
    have hfind : List.find? (fun p => p.1 == bootloader_section_name)
        w.bootloader_elf.sections = none := by
      rw [List.find?_eq_none]
      intro x hx
      simp [habs x hx]
    have hext : extract_section w.bootloader_elf bootloader_section_name =
        Except.error ExtractError.SectionNotFound := by
      simp [extract_section, hwf, find_section_by_name, hfind]
    suffices hsuff : build_impl w c = ⟨Outcome.exited 1, none⟩ ∨
        build_impl w c = ⟨Outcome.panicked, none⟩ by
      rcases hsuff with h | h <;> rw [h] <;> exact ⟨by decide, rfl⟩
    by_cases h1 : w.kernel_exit ≠ 0
    · exact Or.inl (build_impl_kernel_fail w c h1)
    · have hk : w.kernel_exit = 0 := by omega
      cases hck : create_kernel_info_block w.kernel_bytes.length with
      | none => exact Or.inr (build_impl_info_none w c hk hck)
      | some info =>
        rw [build_impl_info_some w c info hk hck]
        unfold build_after_info_block
        by_cases h2 : w.fetch_exit ≠ 0
        · rw [if_pos h2]
          exact Or.inr rfl
        · rw [if_neg h2]
          by_cases h3 : w.bootloader_crate_found = false
          · rw [if_pos h3]
            exact Or.inr rfl
          · rw [if_neg h3]
            by_cases h4 : c.precompiled = false ∧ w.bootloader_build_exit ≠ 0
            · rw [if_pos h4]
              exact Or.inl rfl
            · rw [if_neg h4, hext]
              exact Or.inr rfl

/-- Witness for C7: a one-section buffer yields its bytes, an empty
well-formed buffer gives `SectionNotFound`, a malformed buffer gives
`MalformedExecutable`. -/
theorem C7_section_extraction_witness :
    extract_section ⟨true, [(['a'], [7])]⟩ ['a'] = Except.ok [7] ∧
    extract_section ⟨true, []⟩ ['a'] =
      Except.error ExtractError.SectionNotFound ∧
    extract_section ⟨false, []⟩ ['a'] =
      Except.error ExtractError.MalformedExecutable :=
  ⟨(C7_section_extraction ⟨true, [(['a'], [7])]⟩ ['a']).1 [7] [] [] rfl rfl
      (by simp),
    (C7_section_extraction ⟨true, []⟩ ['a']).2.1 rfl (by simp),
    (C7_section_extraction ⟨false, []⟩ ['a']).2.2.1 rfl⟩

/-- C8: Fatal toolchain failure.  A non-zero kernel-build toolchain
status makes `build_impl` exit the process with code 1 immediately and
nothing downstream runs; likewise, when the earlier stages succeed and
the bootloader is not precompiled, a non-zero bootloader-build
toolchain status exits the process with code 1 and nothing is written
to the output image. -/
theorem C8_toolchain_failure_exits (w : World) (c : Config) :
    (w.kernel_exit ≠ 0 → build_impl w c = ⟨Outcome.exited 1, none⟩) ∧
    (w.kernel_exit = 0 → w.kernel_bytes.length ≤ U32_MAX →
      w.fetch_exit = 0 → w.bootloader_crate_found = true →
      c.precompiled = false → w.bootloader_build_exit ≠ 0 →
      build_impl w c = ⟨Outcome.exited 1, none⟩) := by
  constructor
  · intro h
    exact build_impl_kernel_fail w c h
  · intro h1 h2 h3 h4 h5 h6
    have hck : create_kernel_info_block w.kernel_bytes.length =
        some (writeU32LE w.kernel_bytes.length ++
          List.replicate (BLOCK_SIZE - 4) 0) := by
      have hdef : create_kernel_info_block w.kernel_bytes.length =
          if w.kernel_bytes.length ≤ U32_MAX then
            some (writeU32LE w.kernel_bytes.length ++
              List.replicate (BLOCK_SIZE - 4) 0)
          else none := rfl
      rw [hdef, if_pos h2]
    rw [build_impl_info_some w c _ h1 hck]
    unfold build_after_info_block
    rw [if_neg (by simp [h3]), if_neg (by simp [h4]), if_pos ⟨h5, h6⟩]

/-- Witness for C8: a failing kernel build and a failing bootloader
build, each on an otherwise benign world. -/
theorem C8_toolchain_failure_exits_witness :
    ((1 : Nat) ≠ 0 ∧
      build_impl ⟨1, [], 0, true, 0, ⟨true, []⟩⟩ ⟨false, none⟩ =
        ⟨Outcome.exited 1, none⟩) ∧
    ((1 : Nat) ≠ 0 ∧
      build_impl ⟨0, [], 0, true, 1, ⟨true, []⟩⟩ ⟨false, none⟩ =
        ⟨Outcome.exited 1, none⟩) :=
  ⟨⟨by norm_num,
      (C8_toolchain_failure_exits ⟨1, [], 0, true, 0, ⟨true, []⟩⟩
        ⟨false, none⟩).1 (by norm_num)⟩,
    ⟨by norm_num,
      (C8_toolchain_failure_exits ⟨0, [], 0, true, 1, ⟨true, []⟩⟩
        ⟨false, none⟩).2 rfl (by simp [U32_MAX]) rfl rfl rfl (by norm_num)⟩⟩

/-- C9, counterexample: the first template token is the program name
and is used verbatim — a template whose only token is the placeholder
launches the literal placeholder, not the output path, so the
placeholder is not replaced everywhere in the template's tokens. -/
theorem C9_run_command_counterexample :
    (run_impl [[lbrace, rbrace]] [Char.ofNat 111] []).1 = [lbrace, rbrace] ∧
    replace_placeholder [Char.ofNat 111] [lbrace, rbrace] = [Char.ofNat 111] ∧
    ([lbrace, rbrace] : List Char) ≠ [Char.ofNat 111] := by
  refine ⟨rfl, replace_placeholder_exact _, by decide⟩

/-- C9 as amended: for a non-empty template, the first token (the
program name) is used verbatim; every occurrence of the placeholder in
each subsequent template token is replaced with the output path (a
token equal to the placeholder becomes the path, a token without the
opening placeholder character is unchanged); caller-supplied run
arguments are appended verbatim after the substituted tokens. -/
theorem C9_run_command_substitution (cmd : List Char)
    (tokens : List (List Char)) (out : List Char)
    (run_args : List (List Char)) :
    run_impl (cmd :: tokens) out run_args =
      (cmd, tokens.map (replace_placeholder out) ++ run_args) ∧
    replace_placeholder out [lbrace, rbrace] = out ∧
    (∀ t : List Char, (∀ c ∈ t, c ≠ lbrace) →
      replace_placeholder out t = t) :=
  ⟨rfl, replace_placeholder_exact out, replace_placeholder_no_lbrace out⟩

/-- Witness for C9 as amended: template `["q", "\x7b\x7d", "a"]` with
output path `"o"` and one extra argument `"b"` runs `q` with arguments
`["o", "a", "b"]`. -/
theorem C9_run_command_substitution_witness :
    run_impl [[Char.ofNat 113], [lbrace, rbrace], [Char.ofNat 97]]
        [Char.ofNat 111] [[Char.ofNat 98]] =
      ([Char.ofNat 113],
        [[Char.ofNat 111], [Char.ofNat 97]] ++ [[Char.ofNat 98]]) := by
  have h := (C9_run_command_substitution [Char.ofNat 113]
    [[lbrace, rbrace], [Char.ofNat 97]] [Char.ofNat 111] [[Char.ofNat 98]]).1
  rw [h]
  refine congrArg _ (congrArg (· ++ _) ?_)
  show [replace_placeholder [Char.ofNat 111] [lbrace, rbrace],
    replace_placeholder [Char.ofNat 111] [Char.ofNat 97]] = _
  rw [replace_placeholder_exact]
  rfl

/-- C10: Padding write is always in bounds.  For every kernel size the
computed padding length is strictly below 512, so slicing that many
bytes out of the fixed 512-byte zero buffer stays in bounds and yields
exactly the padding zeros. -/
theorem C10_padding_in_bounds (s : Nat) :
    padding_size s < 512 ∧
    (List.replicate 512 (0 : Nat)).take (padding_size s) =
      List.replicate (padding_size s) 0 := by
  refine ⟨padding_size_lt s, ?_⟩
  rw [List.take_replicate, min_eq_left (padding_size_lt s).le]

end Bootimage
